import Mathlib

/-! Shallow embedding of the CSM runtime speech-token generation engine
(`third_party/csm_runtime/generator.py`, `watermarking.py`, `runtime.py`).

External collaborators (the neural model, the sub-word text tokenizer, the
Mimi audio codec, the silentcipher watermark embedder and the torchaudio
resampler) are parameters of the embedding: they appear as structure fields
holding opaque deterministic functions, exactly at the interface the Python
code consumes them.  All engine-side control flow — tokenization layout,
the entry length guard, the autoregressive decoding loop, the watermark
post-processing branch — is translated from the Python source.

Side effects that the claims talk about (cache resets, tokenizer calls,
model invocations) are made observable through an explicit event log that
`generate` threads through its execution in program order.
-/

namespace CsmRuntime

/-- One decoded-audio sample (the sample values themselves are opaque payload
for this engine; only lengths and identity matter). -/
abbrev Wave := List Int

/-- A frame row: `K+1 = 33` integer slots (32 audio codebooks + 1 text slot). -/
abbrev Frame := List Int

/-- The parallel boolean mask row of a frame. -/
abbrev MaskRow := List Bool

/-- A torch tensor, reduced to its shape and (flattened) integer data. -/
structure Tensor where
  shape : List Nat
  data : List Int
deriving Repr, DecidableEq

/-- A rectangular integer matrix (torch 2-D tensor), functional entries. -/
structure Mat where
  rows : Nat
  cols : Nat
  entry : Nat → Nat → Int

/-- Structure `Segment` from `generator.py`: one turn of context. -/
structure Segment where
  speaker : Int
  text : String
  audio : Tensor

/-- Observable side effects of one `generate` call, in program order. -/
inductive Event where
  | resetCaches
  | textTokenize
  | audioEncode
  | modelCall
  | audioDecode
  | watermarkCall
deriving Repr, DecidableEq

/-- The external text tokenizer (`AutoTokenizer.encode`). -/
structure TextTok where
  encode : String → List Int

/-- The external audio codec (Mimi): `encode`/`decode` plus its fixed native
sample rate (`mimi.sample_rate`). -/
structure AudioCodec where
  sampleRate : Nat
  encode : Wave → Mat
  decode : Mat → Wave

/-- The external model capability, with its opaque cache state `σ`:
`reset_caches()` and `generate_frame(tokens, mask, pos, temperature, topk)`. -/
structure Model (σ : Type) where
  resetCaches : σ → σ
  generateFrame : σ → List Frame → List MaskRow → List Int → ℚ → Nat → Frame × σ

/-- The external watermark embedder (`silentcipher` `encode_wav`). -/
structure Watermarker where
  encodeWav : Wave → Nat → List Int → Wave

/-- The external resampler (`torchaudio.functional.resample`). -/
structure Resampler where
  resample : Wave → Nat → Nat → Wave

/-- Constant `CSM_1B_GH_WATERMARK` from `watermarking.py`. -/
def CSM_1B_GH_WATERMARK : List Int := [212, 211, 146, 56, 201]

/-- Function `watermark` from `watermarking.py`: resample to 44100, embed, resample to
`min(44100, sample_rate)` and return that as the new sample rate. -/
def watermark (R : Resampler) (wm : Watermarker) (audioArray : Wave)
    (sampleRate : Nat) (watermarkKey : List Int) : Wave × Nat :=
  let audioArray44khz := R.resample audioArray sampleRate 44100
  let encoded := wm.encodeWav audioArray44khz 44100 watermarkKey
  let outputSampleRate := min 44100 sampleRate
  let encoded := R.resample encoded 44100 outputSampleRate
  (encoded, outputSampleRate)

/-- Python `int()` on a rational: truncation toward zero. -/
def pyInt (q : ℚ) : Int :=
  if q < 0 then -⌊-q⌋ else ⌊q⌋

/-- The engine (`Generator.__init__` wiring): model plus collaborators.
`load_watermark=False` corresponds to `watermarker = none`. -/
structure Generator (σ : Type) where
  model : Model σ
  textTokenizer : TextTok
  audioTokenizer : AudioCodec
  watermarker : Option Watermarker
  resampler : Resampler

/-- Assignment `self.sample_rate = mimi.sample_rate` in `Generator.__init__`. -/
def Generator.sampleRate {σ : Type} (g : Generator σ) : Nat :=
  g.audioTokenizer.sampleRate

/-- The f-string `f"[{speaker}]{text}"`. -/
def speakerText (speaker : Int) (text : String) : String :=
  "[" ++ toString speaker ++ "]" ++ text

/-- Method `Generator._tokenize_text_segment`: one frame per sub-word token, the
token in the last (text) slot, mask true only there.  Also logs the external
tokenizer call. -/
def tokenizeTextSegment {σ : Type} (g : Generator σ) (text : String)
    (speaker : Int) : (List Frame × List MaskRow) × List Event :=
  let textTokens := g.textTokenizer.encode (speakerText speaker text)
  ((textTokens.map (fun t => List.replicate 32 0 ++ [t]),
    textTokens.map (fun _ => List.replicate 32 false ++ [true])),
   [Event.textTokenize])

/-- Method `Generator._tokenize_audio`: assert mono, codec-encode to a `K×F` token
matrix, append one all-zero EOS column, transpose to `F+1` frames whose first
32 slots are the codebook values and whose text slot is 0, mask true on the
32 audio slots only.  The assert fires before the codec is invoked. -/
def tokenizeAudio {σ : Type} (g : Generator σ) (audio : Tensor) :
    Except String (List Frame × List MaskRow) × List Event :=
  if audio.shape.length = 1 then
    let audioTokens := g.audioTokenizer.encode audio.data
    let F := audioTokens.cols
    (Except.ok
      ((List.range (F + 1)).map (fun t =>
         (List.range 32).map (fun k => if t < F then audioTokens.entry k t else 0) ++ [0]),
       (List.range (F + 1)).map (fun _ => List.replicate 32 true ++ [false])),
     [Event.audioEncode])
  else
    (Except.error "Audio must be single channel", [])

/-- Method `Generator._tokenize_segment`: text frames then audio frames. -/
def tokenizeSegment {σ : Type} (g : Generator σ) (segment : Segment) :
    Except String (List Frame × List MaskRow) × List Event :=
  let ((textTokens, textMasks), evsT) := tokenizeTextSegment g segment.text segment.speaker
  match tokenizeAudio g segment.audio with
  | (Except.ok (audioTokens, audioMasks), evsA) =>
      (Except.ok (textTokens ++ audioTokens, textMasks ++ audioMasks), evsT ++ evsA)
  | (Except.error e, evsA) => (Except.error e, evsT ++ evsA)

/-- The context-tokenization loop at the top of `Generator.generate`:
tokenize each segment in order, concatenating; the first failure aborts. -/
def tokenizeContext {σ : Type} (g : Generator σ) :
    List Segment → Except String (List Frame × List MaskRow) × List Event
  | [] => (Except.ok ([], []), [])
  | segment :: rest =>
      match tokenizeSegment g segment with
      | (Except.ok (toks, masks), evs) =>
          match tokenizeContext g rest with
          | (Except.ok (toksR, masksR), evsR) =>
              (Except.ok (toks ++ toksR, masks ++ masksR), evs ++ evsR)
          | (Except.error e, evsR) => (Except.error e, evs ++ evsR)
      | (Except.error e, evs) => (Except.error e, evs)

/-- Prompt assembly in `Generator.generate`: all context segments' frames
followed by the generation target's text frames. -/
def assemblePrompt {σ : Type} (g : Generator σ) (text : String) (speaker : Int)
    (context : List Segment) :
    Except String (List Frame × List MaskRow) × List Event :=
  match tokenizeContext g context with
  | (Except.ok (ctxToks, ctxMasks), evsC) =>
      let ((genToks, genMasks), evsG) := tokenizeTextSegment g text speaker
      (Except.ok (ctxToks ++ genToks, ctxMasks ++ genMasks), evsC ++ evsG)
  | (Except.error e, evsC) => (Except.error e, evsC)

/-- The decoding loop of `Generator.generate` (`for _ in range(max_generation_len)`),
structurally recursive on the remaining iteration budget.  Each iteration
invokes the model, stops on an all-zero candidate frame without appending it,
otherwise appends the frame and builds the next single-frame window: the
frame's values plus one zero text slot, mask true on exactly the frame's
slots and false on the text slot, and the position window `curr_pos[:, -1:] + 1`. -/
def genLoop {σ : Type} (M : Model σ) (temperature : ℚ) (topk : Nat) :
    Nat → σ → List Frame → List MaskRow → List Int →
    List (List Int) → List Event → List (List Int) × σ × List Event
  | 0, c, _, _, _, samples, evs => (samples, c, evs)
  | n + 1, c, currTokens, currTokensMask, currPos, samples, evs =>
      let (sample, c') := M.generateFrame c currTokens currTokensMask currPos temperature topk
      let evs' := evs ++ [Event.modelCall]
      if sample.all (· = 0) then
        (samples, c', evs')
      else
        genLoop M temperature topk n c'
          [sample ++ [0]]
          [List.replicate sample.length true ++ [false]]
          ((currPos.getLast?).elim [] (fun p => [p + 1]))
          (samples ++ [sample]) evs'

/-- Expression `torch.stack(samples).permute(1, 2, 0)`: the accepted frames as a
`K × T` matrix (one column per accepted frame). -/
def stackedSamples (samples : List (List Int)) : Mat :=
  { rows := (samples.head?.map List.length).getD 0
    cols := samples.length
    entry := fun k t => ((samples.getD t []).getD k 0) }

/-- The exact `ValueError` message of the entry length guard. -/
def guardMsg (maxContextLen : Int) : String :=
  "Inputs too long, must be below max_seq_len - max_generation_len: " ++
    toString maxContextLen

/-- The optional watermark post-processing at the tail of `Generator.generate`
(lines 152–161): if a watermarker is loaded, call `watermark` with the
engine sample rate and the fixed `CSM_1B_GH_WATERMARK` key, then resample
the result from the watermark's output rate back to the engine sample rate;
otherwise pass the decoded waveform through untouched. -/
def postProcess {σ : Type} (g : Generator σ) (audio : Wave) : Wave × List Event :=
  match g.watermarker with
  | none => (audio, [])
  | some wm =>
      let (audioWm, wmSampleRate) :=
        watermark g.resampler wm audio g.sampleRate CSM_1B_GH_WATERMARK
      (g.resampler.resample audioWm wmSampleRate g.sampleRate, [Event.watermarkCall])

/-- The body of `Generator.generate` after the cache reset, with `c0` the
just-reset cache.  Control flow follows the source: compute
`max_generation_len = int(max_audio_length_ms / 80)`; tokenize the context
segments then the target text and assemble the prompt; apply the length
guard (`max_seq_len = 2048`); run the decoding loop; return an empty
waveform if no frame was accepted, otherwise codec-decode the stacked
frames and post-process. -/
def generateFrom {σ : Type} (g : Generator σ) (c0 : σ) (text : String)
    (speaker : Int) (context : List Segment) (maxAudioLengthMs : ℚ)
    (temperature : ℚ) (topk : Nat) :
    (Except String Wave × List Event) × σ :=
  let evs0 : List Event := [Event.resetCaches]
  let maxGenerationLen : Int := pyInt (maxAudioLengthMs / 80)
  match assemblePrompt g text speaker context with
  | (Except.error e, evsP) => ((Except.error e, evs0 ++ evsP), c0)
  | (Except.ok (promptTokens, promptTokensMask), evsP) =>
    let evs := evs0 ++ evsP
    let currPos := (List.range promptTokens.length).map Int.ofNat
    let maxContextLen : Int := 2048 - maxGenerationLen
    if (promptTokens.length : Int) ≥ maxContextLen then
      ((Except.error (guardMsg maxContextLen), evs), c0)
    else
      let r := genLoop g.model temperature topk maxGenerationLen.toNat c0
                 promptTokens promptTokensMask currPos [] evs
      if r.1.isEmpty then
        ((Except.ok [], r.2.2), r.2.1)
      else
        let audio := g.audioTokenizer.decode (stackedSamples r.1)
        let post := postProcess g audio
        ((Except.ok post.1, (r.2.2 ++ [Event.audioDecode]) ++ post.2), r.2.1)

/-- Method `Generator.generate`: `self._model.reset_caches()` first (line 100),
then the rest of the body on the freshly reset cache.  `cacheIn` is the
model cache as it stands when the call begins (`self._model`'s mutable
state); the call returns the result, the event log in program order, and
the final cache state. -/
def generate {σ : Type} (g : Generator σ) (cacheIn : σ) (text : String)
    (speaker : Int) (context : List Segment) (maxAudioLengthMs : ℚ)
    (temperature : ℚ) (topk : Nat) :
    (Except String Wave × List Event) × σ :=
  generateFrom g (g.model.resetCaches cacheIn) text speaker context
    maxAudioLengthMs temperature topk

/-- Class `CsmRuntime` from `runtime.py`: wraps a generator; `self.sample_rate`
is the generator's sample rate. -/
structure Runtime (σ : Type) where
  generator : Generator σ

/-- Assignment `self.sample_rate = self._generator.sample_rate` in `CsmRuntime.__init__`. -/
def Runtime.sampleRate {σ : Type} (rt : Runtime σ) : Nat :=
  rt.generator.sampleRate

/-- Method `CsmRuntime.generate` (`runtime.py`), over already-built context
segments (file loading, downmix and resample of `_build_context` are
external I/O): invoke the generator and report the waveform together with
the runtime's own `sample_rate` field.  The `audio.ndim == 0` patch-up in
the source replaces a scalar tensor by `zeros(1)`; the generator only ever
returns 1-D tensors, and the embedding's waveforms are 1-D lists, so it is
the identity here. -/
def Runtime.generate {σ : Type} (rt : Runtime σ) (cacheIn : σ) (text : String)
    (speaker : Int) (context : List Segment) (maxAudioLengthMs : ℚ)
    (temperature : ℚ) (topk : Nat) :
    Except String (Wave × Nat) × σ :=
  match CsmRuntime.generate rt.generator cacheIn text speaker context maxAudioLengthMs temperature topk with
  | ((Except.error e, _), c) => (Except.error e, c)
  | ((Except.ok audio, _), c) => (Except.ok (audio, rt.sampleRate), c)

/-! Concrete stand-in collaborators:

Deterministic stand-ins used to exercise the engine on concrete inputs
(the spec's "deterministic stand-in model/codec"). -/

/-- A stand-in model over a `Nat` call-counter cache: emits `m` frames of
all-ones, then the all-zero stop frame.  `reset_caches` empties the cache. -/
def egModel (m : Nat) : Model Nat :=
  { resetCaches := fun _ => 0
    generateFrame := fun c _ _ _ _ _ =>
      (if c < m then List.replicate 32 1 else List.replicate 32 0, c + 1) }

/-- A stand-in model that never emits the stop frame. -/
def egModelOnes : Model Nat :=
  { resetCaches := fun _ => 0
    generateFrame := fun c _ _ _ _ _ => (List.replicate 32 1, c + 1) }

/-- A stand-in codec: 3 samples of hop per frame, all-ones token matrices. -/
def egCodec : AudioCodec :=
  { sampleRate := 24000
    encode := fun w => { rows := 32, cols := w.length / 3, entry := fun _ _ => 1 }
    decode := fun m => List.replicate (m.cols * 3) 0 }

/-- A stand-in sub-word tokenizer: one token id per character. -/
def egTok : TextTok :=
  { encode := fun s => (List.range s.length).map Int.ofNat }

/-- A stand-in engine without watermarking, over the stand-in model `egModel m`. -/
def egGen (m : Nat) : Generator Nat :=
  { model := egModel m
    textTokenizer := egTok
    audioTokenizer := egCodec
    watermarker := none
    resampler := { resample := fun w _ _ => w } }

/-- The stand-in engine with watermarking enabled (identity embedder). -/
def egGenWm (m : Nat) : Generator Nat :=
  { egGen m with watermarker := some { encodeWav := fun w _ _ => w.map (· + 1) } }

/-- The stand-in engine over the never-stopping model. -/
def egGenOnes : Generator Nat :=
  { egGen 0 with model := egModelOnes }

/-! Helper lemmas. -/

/-- Audio tokenization logs no model invocation. -/
lemma modelCall_not_mem_tokenizeAudio {σ : Type} (g : Generator σ) (audio : Tensor) :
    Event.modelCall ∉ (tokenizeAudio g audio).2 := by
  unfold tokenizeAudio
  split <;> simp

/-- Segment tokenization logs no model invocation. -/
lemma modelCall_not_mem_tokenizeSegment {σ : Type} (g : Generator σ) (seg : Segment) :
    Event.modelCall ∉ (tokenizeSegment g seg).2 := by
  have h := modelCall_not_mem_tokenizeAudio g seg.audio
  unfold tokenizeSegment
  rcases hA : tokenizeAudio g seg.audio with ⟨res, evsA⟩
  rw [hA] at h
  cases res <;> simp_all [tokenizeTextSegment]

/-- Context tokenization logs no model invocation. -/
lemma modelCall_not_mem_tokenizeContext {σ : Type} (g : Generator σ) (ctx : List Segment) :
    Event.modelCall ∉ (tokenizeContext g ctx).2 := by
  induction ctx with
  | nil => simp [tokenizeContext]
  | cons seg rest ih =>
      have hs := modelCall_not_mem_tokenizeSegment g seg
      unfold tokenizeContext
      rcases hS : tokenizeSegment g seg with ⟨resS, evsS⟩
      rw [hS] at hs
      rcases hR : tokenizeContext g rest with ⟨resR, evsR⟩
      rw [hR] at ih
      rcases resS with e | ⟨toks, masks⟩
      · simpa using hs
      · rcases resR with e' | ⟨toksR, masksR⟩ <;> simp_all

/-- Prompt assembly logs no model invocation. -/
lemma modelCall_not_mem_assemblePrompt {σ : Type} (g : Generator σ) (text : String)
    (speaker : Int) (ctx : List Segment) :
    Event.modelCall ∉ (assemblePrompt g text speaker ctx).2 := by
  have hc := modelCall_not_mem_tokenizeContext g ctx
  unfold assemblePrompt
  rcases hC : tokenizeContext g ctx with ⟨resC, evsC⟩
  rw [hC] at hc
  rcases resC with e | ⟨toks, masks⟩ <;> simp_all [tokenizeTextSegment]

/-- The decoding loop accepts at most as many frames as its iteration budget. -/
lemma genLoop_length_le {σ : Type} (M : Model σ) (t : ℚ) (k : Nat) (n : Nat) :
    ∀ (c : σ) (toks : List Frame) (mask : List MaskRow) (pos : List Int)
      (samples : List (List Int)) (evs : List Event),
      ((genLoop M t k n c toks mask pos samples evs).1).length ≤ samples.length + n := by
  induction n with
  | zero => intro c toks mask pos samples evs; simp [genLoop]
  | succ n ih =>
      intro c toks mask pos samples evs
      unfold genLoop
      split
      split
      · exact Nat.le_add_right _ _
      · refine le_trans (ih _ _ _ _ _ _) ?_
        simp only [List.length_append, List.length_cons, List.length_nil]
        omega

/-- The decoding loop performs at most as many model invocations as its
iteration budget (on top of whatever the incoming log already holds). -/
lemma genLoop_modelCall_count_le {σ : Type} (M : Model σ) (t : ℚ) (k : Nat) (n : Nat) :
    ∀ (c : σ) (toks : List Frame) (mask : List MaskRow) (pos : List Int)
      (samples : List (List Int)) (evs : List Event),
      ((genLoop M t k n c toks mask pos samples evs).2.2).count Event.modelCall ≤
        evs.count Event.modelCall + n := by
  induction n with
  | zero => intro c toks mask pos samples evs; simp [genLoop]
  | succ n ih =>
      intro c toks mask pos samples evs
      unfold genLoop
      split
      split
      · show ((evs ++ [Event.modelCall]).count Event.modelCall) ≤ _
        simp only [List.count_append]
        have : (List.count Event.modelCall [Event.modelCall]) ≤ 1 := by simp
        omega
      · refine le_trans (ih _ _ _ _ _ _) ?_
        simp only [List.count_append]
        have : (List.count Event.modelCall [Event.modelCall]) ≤ 1 := by simp
        omega

/-- Python truncation agrees with the floor on non-negative rationals. -/
lemma pyInt_eq_floor {q : ℚ} (hq : 0 ≤ q) : pyInt q = ⌊q⌋ := by
  simp [pyInt, not_lt.mpr hq]

/-- Post-processing logs no model invocation. -/
lemma modelCall_not_mem_postProcess {σ : Type} (g : Generator σ) (w : Wave) :
    Event.modelCall ∉ (postProcess g w).2 := by
  unfold postProcess
  cases g.watermarker <;> simp

/-- The accepted-frame matrix has one column per accepted frame. -/
lemma stackedSamples_cols (samples : List (List Int)) :
    (stackedSamples samples).cols = samples.length := rfl

/-- Characterization of `generate` on a call that passes the length guard:
the result is the decoding loop's accepted frames, either empty (empty
waveform) or codec-decoded and post-processed. -/
lemma generate_pass_eq {σ : Type} (g : Generator σ) (cacheIn : σ) (text : String)
    (speaker : Int) (context : List Segment) (ms temperature : ℚ) (topk : Nat)
    (pt : List Frame) (pm : List MaskRow) (evsP : List Event)
    (hp : assemblePrompt g text speaker context = (Except.ok (pt, pm), evsP))
    (hg : ¬ ((pt.length : Int) ≥ 2048 - pyInt (ms / 80))) :
    generate g cacheIn text speaker context ms temperature topk =
      (if (genLoop g.model temperature topk (pyInt (ms / 80)).toNat
            (g.model.resetCaches cacheIn) pt pm
            ((List.range pt.length).map Int.ofNat) []
            (Event.resetCaches :: evsP)).1.isEmpty then
         ((Except.ok [],
           (genLoop g.model temperature topk (pyInt (ms / 80)).toNat
             (g.model.resetCaches cacheIn) pt pm
             ((List.range pt.length).map Int.ofNat) []
             (Event.resetCaches :: evsP)).2.2),
          (genLoop g.model temperature topk (pyInt (ms / 80)).toNat
            (g.model.resetCaches cacheIn) pt pm
            ((List.range pt.length).map Int.ofNat) []
            (Event.resetCaches :: evsP)).2.1)
       else
         ((Except.ok (postProcess g (g.audioTokenizer.decode (stackedSamples
             (genLoop g.model temperature topk (pyInt (ms / 80)).toNat
               (g.model.resetCaches cacheIn) pt pm
               ((List.range pt.length).map Int.ofNat) []
               (Event.resetCaches :: evsP)).1))).1,
           ((genLoop g.model temperature topk (pyInt (ms / 80)).toNat
              (g.model.resetCaches cacheIn) pt pm
              ((List.range pt.length).map Int.ofNat) []
              (Event.resetCaches :: evsP)).2.2 ++ [Event.audioDecode]) ++
             (postProcess g (g.audioTokenizer.decode (stackedSamples
               (genLoop g.model temperature topk (pyInt (ms / 80)).toNat
                 (g.model.resetCaches cacheIn) pt pm
                 ((List.range pt.length).map Int.ofNat) []
                 (Event.resetCaches :: evsP)).1))).2),
          (genLoop g.model temperature topk (pyInt (ms / 80)).toNat
            (g.model.resetCaches cacheIn) pt pm
            ((List.range pt.length).map Int.ofNat) []
            (Event.resetCaches :: evsP)).2.1)) := by
  simp only [generate, generateFrom, hp, List.singleton_append]
  rw [if_neg hg]

/-! Claims. -/

/-- Claim C1: whenever the assembled prompt's frame count satisfies
`len(prompt_tokens) ≥ max_seq_len - max_generation_len` (with
`max_seq_len = 2048` and `max_generation_len = ⌊max_audio_length_ms / 80⌋`),
`Generator.generate` raises the length-guard `ValueError` and the model's
`generate_frame` capability is never invoked (zero `modelCall` events), so
no generated frames are produced. -/
theorem length_guard_rejects_before_model {σ : Type} (g : Generator σ) (cacheIn : σ)
    (text : String) (speaker : Int) (context : List Segment)
    (ms temperature : ℚ) (topk : Nat)
    (pt : List Frame) (pm : List MaskRow) (evsP : List Event)
    (hms : 0 ≤ ms)
    (hp : assemblePrompt g text speaker context = (Except.ok (pt, pm), evsP))
    (hlen : (pt.length : Int) ≥ 2048 - ⌊ms / 80⌋) :
    (generate g cacheIn text speaker context ms temperature topk).1.1 =
      Except.error (guardMsg (2048 - ⌊ms / 80⌋)) ∧
    ((generate g cacheIn text speaker context ms temperature topk).1.2).count
      Event.modelCall = 0 := by
  have hq : 0 ≤ ms / 80 := by positivity
  have hpy : pyInt (ms / 80) = ⌊ms / 80⌋ := pyInt_eq_floor hq
  have hnc := modelCall_not_mem_assemblePrompt g text speaker context
  rw [hp] at hnc
  constructor
  · simp [generate, generateFrom, hp, hpy, hlen]
  · simp [generate, generateFrom, hp, hpy, hlen]
    simp [List.count_eq_zero, hnc]

/-- Concrete instance of the C1 guard rejection. -/
theorem length_guard_rejects_before_model_witness :
    ((0 : ℚ) ≤ 163840 ∧
      assemblePrompt (egGen 3) "Hi" 0 [] =
        (Except.ok
          ((List.range 5).map fun i => List.replicate 32 (0 : Int) ++ [(i : Int)],
           (List.range 5).map fun _ => List.replicate 32 false ++ [true]),
         [Event.textTokenize]) ∧
      ((((List.range 5).map fun i =>
          List.replicate 32 (0 : Int) ++ [(i : Int)]).length : Int) ≥
        2048 - ⌊(163840 : ℚ) / 80⌋)) ∧
    (generate (egGen 3) 7 "Hi" 0 [] 163840 1 50).1.1 =
      Except.error (guardMsg (2048 - ⌊(163840 : ℚ) / 80⌋)) ∧
    ((generate (egGen 3) 7 "Hi" 0 [] 163840 1 50).1.2).count Event.modelCall = 0 :=
  ⟨⟨by norm_num, by rfl, by
      have h0 : (2048 : Int) - ⌊(163840 : ℚ) / 80⌋ = 0 := by norm_num
      rw [ge_iff_le, h0]
      positivity⟩,
   length_guard_rejects_before_model (egGen 3) 7 "Hi" 0 [] 163840 1 50 _ _ _
     (by norm_num) (by rfl) (by
      have h0 : (2048 : Int) - ⌊(163840 : ℚ) / 80⌋ = 0 := by norm_num
      rw [ge_iff_le, h0]
      positivity)⟩

/-- Claim C2 counterexample: on a concrete length-guard rejection, the call's
event log shows that `reset_caches` was called and the text tokenizer ran
before the rejection — refuting the claim that no cache touch and no
tokenization side effects precede the check. -/
theorem cache_touched_before_guard_counterexample :
    (generate (egGen 3) 7 "A" 0 [] 163840 1 50).1.1 = Except.error (guardMsg 0) ∧
    Event.resetCaches ∈ (generate (egGen 3) 7 "A" 0 [] 163840 1 50).1.2 ∧
    Event.textTokenize ∈ (generate (egGen 3) 7 "A" 0 [] 163840 1 50).1.2 := by
  have h80 : pyInt ((163840 : ℚ) / 80) = 2048 := by norm_num [pyInt]
  have hgen : (generate (egGen 3) 7 "A" 0 [] 163840 1 50).1 =
      (Except.error (guardMsg 0), [Event.resetCaches, Event.textTokenize]) := by
    simp only [generate, generateFrom, h80]
    rfl
  rw [hgen]
  exact ⟨rfl, by simp, by simp⟩

/-- Claim C2 (amended): when the length guard rejects a call, no model
invocation has occurred and no frames are produced, but the cache reset and
the tokenization of the context and target text have already happened: the
event log of the rejected call is exactly the cache reset followed by the
tokenizer events, with no model call among them. -/
theorem guard_rejection_after_reset_and_tokenization {σ : Type} (g : Generator σ)
    (cacheIn : σ) (text : String) (speaker : Int) (context : List Segment)
    (ms temperature : ℚ) (topk : Nat)
    (pt : List Frame) (pm : List MaskRow) (evsP : List Event)
    (hms : 0 ≤ ms)
    (hp : assemblePrompt g text speaker context = (Except.ok (pt, pm), evsP))
    (hlen : (pt.length : Int) ≥ 2048 - ⌊ms / 80⌋) :
    (generate g cacheIn text speaker context ms temperature topk).1.2 =
      Event.resetCaches :: evsP ∧
    Event.modelCall ∉ (generate g cacheIn text speaker context ms temperature topk).1.2 := by
  have hq : 0 ≤ ms / 80 := by positivity
  have hpy : pyInt (ms / 80) = ⌊ms / 80⌋ := pyInt_eq_floor hq
  have hnc := modelCall_not_mem_assemblePrompt g text speaker context
  rw [hp] at hnc
  constructor
  · simp [generate, generateFrom, hp, hpy, hlen]
  · simp [generate, generateFrom, hp, hpy, hlen]
    simp [hnc]

/-- Concrete instance of the amended C2: the rejected call's log is the
cache reset followed by the target-text tokenizer call. -/
theorem guard_rejection_after_reset_and_tokenization_witness :
    ((0 : ℚ) ≤ 163840 ∧
      assemblePrompt (egGen 3) "A" 0 [] =
        (Except.ok
          ((List.range 4).map fun i => List.replicate 32 (0 : Int) ++ [(i : Int)],
           (List.range 4).map fun _ => List.replicate 32 false ++ [true]),
         [Event.textTokenize]) ∧
      ((((List.range 4).map fun i =>
          List.replicate 32 (0 : Int) ++ [(i : Int)]).length : Int) ≥
        2048 - ⌊(163840 : ℚ) / 80⌋)) ∧
    (generate (egGen 3) 7 "A" 0 [] 163840 1 50).1.2 =
      Event.resetCaches :: [Event.textTokenize] ∧
    Event.modelCall ∉ (generate (egGen 3) 7 "A" 0 [] 163840 1 50).1.2 :=
  ⟨⟨by norm_num, by rfl, by
      have h0 : (2048 : Int) - ⌊(163840 : ℚ) / 80⌋ = 0 := by norm_num
      rw [ge_iff_le, h0]
      positivity⟩,
   guard_rejection_after_reset_and_tokenization (egGen 3) 7 "A" 0 [] 163840 1 50 _ _ _
     (by norm_num) (by rfl) (by
      have h0 : (2048 : Int) - ⌊(163840 : ℚ) / 80⌋ = 0 := by norm_num
      rw [ge_iff_le, h0]
      positivity)⟩

/-- Claim C3: an all-zero candidate frame terminates the decoding loop
immediately without being appended (for any step: if the model's response is
all zeros, the loop's accepted frames are exactly those already accumulated),
and when the all-zero frame arrives on the very first step, `generate`
succeeds with a zero-length audio buffer — no error. -/
theorem allzero_frame_stops_loop {σ : Type} (g : Generator σ) (cacheIn : σ)
    (text : String) (speaker : Int) (context : List Segment)
    (ms temperature : ℚ) (topk : Nat)
    (pt : List Frame) (pm : List MaskRow) (evsP : List Event)
    (hp : assemblePrompt g text speaker context = (Except.ok (pt, pm), evsP))
    (hlen : ¬ ((pt.length : Int) ≥ 2048 - pyInt (ms / 80)))
    (hstop : ((g.model.generateFrame (g.model.resetCaches cacheIn) pt pm
        ((List.range pt.length).map Int.ofNat) temperature topk).1.all (· = 0)) = true) :
    (∀ (n : Nat) (c : σ) (toks : List Frame) (mask : List MaskRow) (pos : List Int)
        (samples : List (List Int)) (evs : List Event),
        ((g.model.generateFrame c toks mask pos temperature topk).1.all (· = 0)) = true →
        (genLoop g.model temperature topk (n + 1) c toks mask pos samples evs).1 = samples) ∧
    (generate g cacheIn text speaker context ms temperature topk).1.1 = Except.ok [] := by
  have hstep : ∀ (n : Nat) (c : σ) (toks : List Frame) (mask : List MaskRow)
      (pos : List Int) (samples : List (List Int)) (evs : List Event),
      ((g.model.generateFrame c toks mask pos temperature topk).1.all (· = 0)) = true →
      (genLoop g.model temperature topk (n + 1) c toks mask pos samples evs).1 = samples := by
    intro n c toks mask pos samples evs hz
    unfold genLoop
    rcases hF : g.model.generateFrame c toks mask pos temperature topk with ⟨sample, c'⟩
    rw [hF] at hz
    replace hz : (List.all sample fun x => decide (x = 0)) = true := hz
    show (if (List.all sample fun x => decide (x = 0)) = true
            then (samples, c', evs ++ [Event.modelCall])
            else genLoop g.model temperature topk n c' [sample ++ [0]]
              [List.replicate sample.length true ++ [false]]
              (pos.getLast?.elim [] fun p => [p + 1]) (samples ++ [sample])
              (evs ++ [Event.modelCall])).1 = samples
    rw [if_pos hz]
  refine ⟨hstep, ?_⟩
  simp only [generate, generateFrom, hp]
  rw [if_neg hlen]
  cases hn : (pyInt (ms / 80)).toNat with
  | zero => simp [genLoop]
  | succ n => simp [hstep _ _ _ _ _ _ _ hstop]

/-- Concrete instance of C3: a stand-in model that stops immediately yields
a successful empty waveform. -/
theorem allzero_frame_stops_loop_witness :
    (assemblePrompt (egGen 0) "Hi" 0 [] =
        (Except.ok
          ((List.range 5).map fun i => List.replicate 32 (0 : Int) ++ [(i : Int)],
           (List.range 5).map fun _ => List.replicate 32 false ++ [true]),
         [Event.textTokenize]) ∧
      ¬ (((((List.range 5).map fun i =>
            List.replicate 32 (0 : Int) ++ [(i : Int)]).length : Int)) ≥
          2048 - pyInt ((90000 : ℚ) / 80)) ∧
      (((egGen 0).model.generateFrame ((egGen 0).model.resetCaches 7)
          ((List.range 5).map fun i => List.replicate 32 (0 : Int) ++ [(i : Int)])
          ((List.range 5).map fun _ => List.replicate 32 false ++ [true])
          ((List.range ((List.range 5).map fun i =>
            List.replicate 32 (0 : Int) ++ [(i : Int)]).length).map Int.ofNat)
          1 50).1.all (· = 0)) = true) ∧
    (generate (egGen 0) 7 "Hi" 0 [] 90000 1 50).1.1 = Except.ok [] :=
  have h80 : pyInt ((90000 : ℚ) / 80) = 1125 := by norm_num [pyInt]
  have hlen : ¬ (((((List.range 5).map fun i =>
      List.replicate 32 (0 : Int) ++ [(i : Int)]).length : Int)) ≥
      2048 - pyInt ((90000 : ℚ) / 80)) := by
    rw [h80]
    have hl : (((List.range 5).map fun i =>
        List.replicate 32 (0 : Int) ++ [(i : Int)]).length) = 5 := by decide
    rw [ge_iff_le, not_le, hl]
    norm_num
  ⟨⟨by rfl, hlen, by rfl⟩,
   (allzero_frame_stops_loop (egGen 0) 7 "Hi" 0 [] 90000 1 50 _ _ _
     (by rfl) hlen (by rfl)).2⟩

/-- Claim C4: `generate` invokes the model at most
`max_generation_len = ⌊max_audio_length_ms / 80⌋` times (the loop runs at
most that many iterations, so at most that many frames are accepted), and —
for a codec whose decode emits at most `hop` samples per frame and
post-processing that does not lengthen the waveform — any returned audio is
at most `max_generation_len × hop` samples long. -/
theorem generation_bounded {σ : Type} (g : Generator σ) (cacheIn : σ)
    (text : String) (speaker : Int) (context : List Segment)
    (ms temperature : ℚ) (topk : Nat) (hop : Nat)
    (hms : 0 ≤ ms)
    (hdec : ∀ m : Mat, (g.audioTokenizer.decode m).length ≤ m.cols * hop)
    (hpost : ∀ w : Wave, (postProcess g w).1.length ≤ w.length) :
    ((generate g cacheIn text speaker context ms temperature topk).1.2).count
        Event.modelCall ≤ (⌊ms / 80⌋).toNat ∧
    (∀ wave, (generate g cacheIn text speaker context ms temperature topk).1.1 =
        Except.ok wave → wave.length ≤ (⌊ms / 80⌋).toNat * hop) := by
  have hq : 0 ≤ ms / 80 := by positivity
  have hpy : pyInt (ms / 80) = ⌊ms / 80⌋ := pyInt_eq_floor hq
  rcases hP : assemblePrompt g text speaker context with ⟨res, evsP⟩
  have hnc := modelCall_not_mem_assemblePrompt g text speaker context
  rw [hP] at hnc
  have h0 : List.count Event.modelCall (Event.resetCaches :: evsP) = 0 := by
    rw [List.count_eq_zero]
    simp [hnc]
  rcases res with e | ⟨pt, pm⟩
  · constructor
    · simp [generate, generateFrom, hP, h0]
    · intro wave hw
      simp [generate, generateFrom, hP] at hw
  · by_cases hg : ((pt.length : Int) ≥ 2048 - pyInt (ms / 80))
    · constructor
      · simp [generate, generateFrom, hP, hg, h0]
      · intro wave hw
        simp [generate, generateFrom, hP, hg] at hw
    · have hEq := generate_pass_eq g cacheIn text speaker context ms temperature topk
        pt pm evsP hP hg
      set r := genLoop g.model temperature topk (pyInt (ms / 80)).toNat
        (g.model.resetCaches cacheIn) pt pm
        ((List.range pt.length).map Int.ofNat) []
        (Event.resetCaches :: evsP) with hr
      have hlenS := genLoop_length_le g.model temperature topk (pyInt (ms / 80)).toNat
        (g.model.resetCaches cacheIn) pt pm
        ((List.range pt.length).map Int.ofNat) [] (Event.resetCaches :: evsP)
      have hcnt := genLoop_modelCall_count_le g.model temperature topk
        (pyInt (ms / 80)).toNat (g.model.resetCaches cacheIn) pt pm
        ((List.range pt.length).map Int.ofNat) [] (Event.resetCaches :: evsP)
      rw [← hr] at hlenS hcnt
      simp only [List.length_nil, Nat.zero_add] at hlenS
      have h0 : (Event.resetCaches :: evsP).count Event.modelCall = 0 := by
        rw [List.count_eq_zero]
        simp [hnc]
      rw [h0, Nat.zero_add] at hcnt
      rw [hpy] at hlenS hcnt
      by_cases he : r.1.isEmpty
      · rw [hEq, if_pos he]
        refine ⟨hcnt, ?_⟩
        intro wave hw
        have hwv : ([] : Wave) = wave := Except.ok.inj hw
        rw [← hwv]
        simp
      · rw [hEq, if_neg he]
        constructor
        · simp only [List.count_append]
          have hd : List.count Event.modelCall [Event.audioDecode] = 0 := by decide
          have hpp : List.count Event.modelCall
              (postProcess g (g.audioTokenizer.decode (stackedSamples r.1))).2 = 0 := by
            rw [List.count_eq_zero]
            exact modelCall_not_mem_postProcess g _
          omega
        · intro wave hw
          have hwv := Except.ok.inj hw
          rw [← hwv]
          refine le_trans (hpost _) (le_trans (hdec _) ?_)
          rw [stackedSamples_cols]
          exact Nat.mul_le_mul_right hop hlenS

/-- Concrete instance of C4: the never-stopping stand-in model with a
2-frame budget accepts 2 frames and returns at most 6 samples. -/
theorem generation_bounded_witness :
    ((0 : ℚ) ≤ 160 ∧
      (∀ m : Mat, ((egGenOnes).audioTokenizer.decode m).length ≤ m.cols * 3) ∧
      (∀ w : Wave, (postProcess egGenOnes w).1.length ≤ w.length)) ∧
    ((generate egGenOnes 7 "Hi" 0 [] 160 1 50).1.2).count Event.modelCall ≤
      (⌊(160 : ℚ) / 80⌋).toNat ∧
    (∀ wave, (generate egGenOnes 7 "Hi" 0 [] 160 1 50).1.1 = Except.ok wave →
      wave.length ≤ (⌊(160 : ℚ) / 80⌋).toNat * 3) :=
  have hdec : ∀ m : Mat, ((egGenOnes).audioTokenizer.decode m).length ≤ m.cols * 3 := by
    intro m
    simp [egGenOnes, egGen, egCodec]
  have hpost : ∀ w : Wave, (postProcess egGenOnes w).1.length ≤ w.length := by
    intro w
    simp [postProcess, egGenOnes, egGen]
  ⟨⟨by norm_num, hdec, hpost⟩,
   generation_bounded egGenOnes 7 "Hi" 0 [] 160 1 50 3 (by norm_num) hdec hpost⟩

/-- Claim C5: a segment's tokenized frames are its text frames followed by
its audio frames (text always precedes audio), and the total frame count is
`n + F + 1`: the sub-word token count of the (speaker-tagged) text, plus the
codec's frame count `F` for the audio, plus exactly one synthetic
end-of-segment frame. -/
theorem segment_tokenization_layout {σ : Type} (g : Generator σ) (seg : Segment)
    (h1 : seg.audio.shape.length = 1) :
    ∃ af am,
      (tokenizeAudio g seg.audio).1 = Except.ok (af, am) ∧
      (tokenizeSegment g seg).1 =
        Except.ok ((tokenizeTextSegment g seg.text seg.speaker).1.1 ++ af,
                   (tokenizeTextSegment g seg.text seg.speaker).1.2 ++ am) ∧
      (tokenizeTextSegment g seg.text seg.speaker).1.1.length =
        (g.textTokenizer.encode (speakerText seg.speaker seg.text)).length ∧
      af.length = (g.audioTokenizer.encode seg.audio.data).cols + 1 ∧
      ((tokenizeTextSegment g seg.text seg.speaker).1.1 ++ af).length =
        (g.textTokenizer.encode (speakerText seg.speaker seg.text)).length +
          (g.audioTokenizer.encode seg.audio.data).cols + 1 := by
  have hA : tokenizeAudio g seg.audio =
      (Except.ok
        ((List.range ((g.audioTokenizer.encode seg.audio.data).cols + 1)).map (fun t =>
           (List.range 32).map (fun k =>
             if t < (g.audioTokenizer.encode seg.audio.data).cols then
               (g.audioTokenizer.encode seg.audio.data).entry k t
             else 0) ++ [0]),
         (List.range ((g.audioTokenizer.encode seg.audio.data).cols + 1)).map (fun _ =>
           List.replicate 32 true ++ [false])),
       [Event.audioEncode]) := by
    unfold tokenizeAudio
    rw [if_pos h1]
  refine ⟨_, _, by rw [hA], ?_, ?_, ?_, ?_⟩
  · simp [tokenizeSegment, hA, tokenizeTextSegment]
  · simp [tokenizeTextSegment]
  · simp
  · simp [tokenizeTextSegment]
    omega

/-- Concrete instance of C5: a 2-character text (5 sub-word tokens with the
speaker tag) and a 9-sample mono audio (3 codec frames) yield 5 + 3 + 1
frames. -/
theorem segment_tokenization_layout_witness :
    (Segment.mk 0 "Hi" (Tensor.mk [9] (List.replicate 9 0))).audio.shape.length = 1 ∧
    ∃ af am,
      (tokenizeAudio (egGen 3)
        (Segment.mk 0 "Hi" (Tensor.mk [9] (List.replicate 9 0))).audio).1 =
        Except.ok (af, am) ∧
      (tokenizeSegment (egGen 3) (Segment.mk 0 "Hi" (Tensor.mk [9] (List.replicate 9 0)))).1 =
        Except.ok ((tokenizeTextSegment (egGen 3) "Hi" 0).1.1 ++ af,
                   (tokenizeTextSegment (egGen 3) "Hi" 0).1.2 ++ am) ∧
      (tokenizeTextSegment (egGen 3) "Hi" 0).1.1.length =
        ((egGen 3).textTokenizer.encode (speakerText 0 "Hi")).length ∧
      af.length = ((egGen 3).audioTokenizer.encode (List.replicate 9 0)).cols + 1 ∧
      ((tokenizeTextSegment (egGen 3) "Hi" 0).1.1 ++ af).length =
        ((egGen 3).textTokenizer.encode (speakerText 0 "Hi")).length +
          ((egGen 3).audioTokenizer.encode (List.replicate 9 0)).cols + 1 :=
  ⟨rfl, segment_tokenization_layout (egGen 3)
    (Segment.mk 0 "Hi" (Tensor.mk [9] (List.replicate 9 0))) rfl⟩

/-- Claim C6: when the candidate frame is accepted (not all zeros), the next
iteration's input window is the accepted frame's values with one appended
zero in the text slot, its mask marks exactly the frame's audio slots valid
and the text slot invalid, and the position window becomes the last position
plus one — the counter advances by exactly 1 per accepted frame. -/
theorem accepted_frame_next_window {σ : Type} (M : Model σ) (temperature : ℚ)
    (topk n : Nat) (c : σ) (toks : List Frame) (mask : List MaskRow)
    (pos : List Int) (samples : List (List Int)) (evs : List Event) (p : Int)
    (hpos : pos.getLast? = some p)
    (hnz : ((M.generateFrame c toks mask pos temperature topk).1.all (· = 0)) = false) :
    genLoop M temperature topk (n + 1) c toks mask pos samples evs =
      genLoop M temperature topk n
        (M.generateFrame c toks mask pos temperature topk).2
        [(M.generateFrame c toks mask pos temperature topk).1 ++ [0]]
        [List.replicate (M.generateFrame c toks mask pos temperature topk).1.length
          true ++ [false]]
        [p + 1]
        (samples ++ [(M.generateFrame c toks mask pos temperature topk).1])
        (evs ++ [Event.modelCall]) := by
  conv_lhs => unfold genLoop
  rcases hF : M.generateFrame c toks mask pos temperature topk with ⟨sample, c'⟩
  rw [hF] at hnz
  replace hnz : (List.all sample fun x => decide (x = 0)) = false := hnz
  show (if (List.all sample fun x => decide (x = 0)) = true
          then (samples, c', evs ++ [Event.modelCall])
          else genLoop M temperature topk n c' [sample ++ [0]]
            [List.replicate sample.length true ++ [false]]
            (pos.getLast?.elim [] fun p => [p + 1]) (samples ++ [sample])
            (evs ++ [Event.modelCall])) = _
  rw [if_neg (by rw [hnz]; simp), hpos]
  rfl

/-- Concrete instance of C6: one accepted frame of the never-stopping model
steps the loop with the single-frame window, its all-audio mask, and the
position advanced from 0 to 1. -/
theorem accepted_frame_next_window_witness :
    (([0] : List Int).getLast? = some 0 ∧
      ((egModelOnes.generateFrame 7 [] [] [0] 1 50).1.all (· = 0)) = false) ∧
    genLoop egModelOnes 1 50 (0 + 1) 7 [] [] [0] [] [] =
      genLoop egModelOnes 1 50 0
        (egModelOnes.generateFrame 7 [] [] [0] 1 50).2
        [(egModelOnes.generateFrame 7 [] [] [0] 1 50).1 ++ [0]]
        [List.replicate (egModelOnes.generateFrame 7 [] [] [0] 1 50).1.length
          true ++ [false]]
        [(0 : Int) + 1]
        ([] ++ [(egModelOnes.generateFrame 7 [] [] [0] 1 50).1])
        ([] ++ [Event.modelCall]) :=
  ⟨⟨rfl, rfl⟩,
   accepted_frame_next_window egModelOnes 1 50 0 7 [] [] [0] [] [] 0 rfl rfl⟩

/-- Claim C7: with watermarking disabled at construction, the waveform
`generate` returns is exactly the codec's raw decode output (empty when no
frame was accepted) — the post-processing step is a no-op and the engine
sample rate passes through unchanged; with watermarking enabled, the
`watermark` step's output sample rate is `min(44100, sample_rate)`, 44100
being the canonical embedding rate. -/
theorem watermark_toggle {σ : Type} (g : Generator σ) (cacheIn : σ)
    (text : String) (speaker : Int) (context : List Segment)
    (ms temperature : ℚ) (topk : Nat)
    (pt : List Frame) (pm : List MaskRow) (evsP : List Event)
    (hnone : g.watermarker = none)
    (hp : assemblePrompt g text speaker context = (Except.ok (pt, pm), evsP))
    (hg : ¬ ((pt.length : Int) ≥ 2048 - pyInt (ms / 80))) :
    ((generate g cacheIn text speaker context ms temperature topk).1.1 =
      Except.ok (
        if (genLoop g.model temperature topk (pyInt (ms / 80)).toNat
              (g.model.resetCaches cacheIn) pt pm
              ((List.range pt.length).map Int.ofNat) []
              (Event.resetCaches :: evsP)).1.isEmpty then []
        else g.audioTokenizer.decode (stackedSamples
              (genLoop g.model temperature topk (pyInt (ms / 80)).toNat
                (g.model.resetCaches cacheIn) pt pm
                ((List.range pt.length).map Int.ofNat) []
                (Event.resetCaches :: evsP)).1))) ∧
    (∀ (R : Resampler) (wm : Watermarker) (a : Wave) (sr : Nat) (key : List Int),
      (watermark R wm a sr key).2 = min 44100 sr) := by
  constructor
  · rw [generate_pass_eq g cacheIn text speaker context ms temperature topk pt pm evsP hp hg]
    by_cases he : (genLoop g.model temperature topk (pyInt (ms / 80)).toNat
        (g.model.resetCaches cacheIn) pt pm
        ((List.range pt.length).map Int.ofNat) []
        (Event.resetCaches :: evsP)).1.isEmpty
    · rw [if_pos he, if_pos he]
    · rw [if_neg he, if_neg he]
      simp [postProcess, hnone]
  · intro R wm a sr key
    rfl

/-- Concrete instance of C7 on the watermark-free stand-in engine. -/
theorem watermark_toggle_witness :
    ((egGen 2).watermarker = none ∧
      assemblePrompt (egGen 2) "Hi" 0 [] =
        (Except.ok
          ((List.range 5).map fun i => List.replicate 32 (0 : Int) ++ [(i : Int)],
           (List.range 5).map fun _ => List.replicate 32 false ++ [true]),
         [Event.textTokenize]) ∧
      ¬ (((((List.range 5).map fun i =>
            List.replicate 32 (0 : Int) ++ [(i : Int)]).length : Int)) ≥
          2048 - pyInt ((90000 : ℚ) / 80))) ∧
    ((generate (egGen 2) 7 "Hi" 0 [] 90000 1 50).1.1 =
      Except.ok (
        if (genLoop (egGen 2).model 1 50 (pyInt ((90000 : ℚ) / 80)).toNat
              ((egGen 2).model.resetCaches 7)
              ((List.range 5).map fun i => List.replicate 32 (0 : Int) ++ [(i : Int)])
              ((List.range 5).map fun _ => List.replicate 32 false ++ [true])
              ((List.range ((List.range 5).map fun i =>
                List.replicate 32 (0 : Int) ++ [(i : Int)]).length).map Int.ofNat) []
              (Event.resetCaches :: [Event.textTokenize])).1.isEmpty then []
        else (egGen 2).audioTokenizer.decode (stackedSamples
              (genLoop (egGen 2).model 1 50 (pyInt ((90000 : ℚ) / 80)).toNat
                ((egGen 2).model.resetCaches 7)
                ((List.range 5).map fun i => List.replicate 32 (0 : Int) ++ [(i : Int)])
                ((List.range 5).map fun _ => List.replicate 32 false ++ [true])
                ((List.range ((List.range 5).map fun i =>
                  List.replicate 32 (0 : Int) ++ [(i : Int)]).length).map Int.ofNat) []
                (Event.resetCaches :: [Event.textTokenize])).1))) ∧
    (∀ (R : Resampler) (wm : Watermarker) (a : Wave) (sr : Nat) (key : List Int),
      (watermark R wm a sr key).2 = min 44100 sr) :=
  have hlen : ¬ (((((List.range 5).map fun i =>
      List.replicate 32 (0 : Int) ++ [(i : Int)]).length : Int)) ≥
      2048 - pyInt ((90000 : ℚ) / 80)) := by
    have h80 : pyInt ((90000 : ℚ) / 80) = 1125 := by norm_num [pyInt]
    rw [h80]
    have hl : (((List.range 5).map fun i =>
        List.replicate 32 (0 : Int) ++ [(i : Int)]).length) = 5 := by decide
    rw [ge_iff_le, not_le, hl]
    norm_num
  ⟨⟨rfl, rfl, hlen⟩,
   watermark_toggle (egGen 2) 7 "Hi" 0 [] 90000 1 50 _ _ _ rfl rfl hlen⟩

/-- Claim C8: on one engine instance with deterministic collaborators and
fixed temperature/topk, two sequential `generate` calls with identical
inputs produce bit-identical output, because the call begins by resetting
the model cache — formalized with the second call starting from the model
cache state the first call left behind, under the invariant that
`reset_caches` empties the cache (its result does not depend on the prior
cache state). -/
theorem sequential_calls_deterministic {σ : Type} (g : Generator σ)
    (hreset : ∀ c c' : σ, g.model.resetCaches c = g.model.resetCaches c')
    (cacheIn : σ) (text : String) (speaker : Int) (context : List Segment)
    (ms temperature : ℚ) (topk : Nat) :
    (generate g ((generate g cacheIn text speaker context ms temperature topk).2)
        text speaker context ms temperature topk).1 =
      (generate g cacheIn text speaker context ms temperature topk).1 := by
  unfold generate
  rw [hreset ((generateFrom g (g.model.resetCaches cacheIn) text speaker context
    ms temperature topk).2) cacheIn]

/-- Concrete instance of C8 on the stand-in engine: the second of two
back-to-back identical calls reproduces the first call's result. -/
theorem sequential_calls_deterministic_witness :
    (∀ c c' : Nat, (egGen 2).model.resetCaches c = (egGen 2).model.resetCaches c') ∧
    (generate (egGen 2) ((generate (egGen 2) 7 "Hi" 0 [] 90000 1 50).2)
        "Hi" 0 [] 90000 1 50).1 =
      (generate (egGen 2) 7 "Hi" 0 [] 90000 1 50).1 :=
  ⟨fun _ _ => rfl,
   sequential_calls_deterministic (egGen 2) (fun _ _ => rfl) 7 "Hi" 0 [] 90000 1 50⟩

/-- Claim C9: whatever the watermark setting, a successful
`CsmRuntime.generate` reports the engine's native sample rate: the runtime
returns its own `sample_rate` field, which is the generator's, and the
generator resamples any watermarked waveform back to that rate before
returning. -/
theorem runtime_reports_engine_rate {σ : Type} (rt : Runtime σ) (cacheIn : σ)
    (text : String) (speaker : Int) (context : List Segment)
    (ms temperature : ℚ) (topk : Nat) (w : Wave) (r : Nat)
    (h : (Runtime.generate rt cacheIn text speaker context ms temperature topk).1 =
      Except.ok (w, r)) :
    r = rt.generator.sampleRate := by
  unfold Runtime.generate at h
  rcases hG : CsmRuntime.generate rt.generator cacheIn text speaker context
    ms temperature topk with ⟨⟨res, evs⟩, c⟩
  rw [hG] at h
  cases res with
  | error e => simp at h
  | ok audio =>
      simp [Runtime.sampleRate] at h
      exact h.2.symm

/-- Concrete instance of C9 on the watermark-enabled stand-in engine. -/
theorem runtime_reports_engine_rate_witness :
    (Runtime.generate (Runtime.mk (egGenWm 2)) 7 "Hi" 0 [] 90000 1 50).1 =
      Except.ok ([1, 1, 1, 1, 1, 1], 24000) ∧
    (24000 = (Runtime.mk (egGenWm 2)).generator.sampleRate) :=
  have h80 : pyInt ((90000 : ℚ) / 80) = 1125 := by norm_num [pyInt]
  have hres : (Runtime.generate (Runtime.mk (egGenWm 2)) 7 "Hi" 0 [] 90000 1 50).1 =
      Except.ok ([1, 1, 1, 1, 1, 1], 24000) := by
    simp only [Runtime.generate, generate, generateFrom, h80]
    rfl
  ⟨hres,
   runtime_reports_engine_rate (Runtime.mk (egGenWm 2)) 7 "Hi" 0 [] 90000 1 50
     [1, 1, 1, 1, 1, 1] 24000 hres⟩

/-- A mono (1-D) segment tokenizes successfully, logging the text-tokenizer
and codec-encode calls. -/
lemma tokenizeSegment_ok_of_mono {σ : Type} (g : Generator σ) (s : Segment)
    (hs : s.audio.shape.length = 1) :
    ∃ toks masks, tokenizeSegment g s =
      (Except.ok (toks, masks), [Event.textTokenize, Event.audioEncode]) := by
  have hA : tokenizeAudio g s.audio =
      (Except.ok
        ((List.range ((g.audioTokenizer.encode s.audio.data).cols + 1)).map (fun t =>
           (List.range 32).map (fun k =>
             if t < (g.audioTokenizer.encode s.audio.data).cols then
               (g.audioTokenizer.encode s.audio.data).entry k t
             else 0) ++ [0]),
         (List.range ((g.audioTokenizer.encode s.audio.data).cols + 1)).map (fun _ =>
           List.replicate 32 true ++ [false])),
       [Event.audioEncode]) := by
    unfold tokenizeAudio
    rw [if_pos hs]
  refine ⟨(g.textTokenizer.encode (speakerText s.speaker s.text)).map
      (fun t => List.replicate 32 0 ++ [t]) ++
      (List.range ((g.audioTokenizer.encode s.audio.data).cols + 1)).map (fun t =>
        (List.range 32).map (fun k =>
          if t < (g.audioTokenizer.encode s.audio.data).cols then
            (g.audioTokenizer.encode s.audio.data).entry k t
          else 0) ++ [0]),
    (g.textTokenizer.encode (speakerText s.speaker s.text)).map
      (fun _ => List.replicate 32 false ++ [true]) ++
      (List.range ((g.audioTokenizer.encode s.audio.data).cols + 1)).map (fun _ =>
        List.replicate 32 true ++ [false]), ?_⟩
  unfold tokenizeSegment
  rw [hA]
  rfl

/-- A context containing a non-mono segment fails to tokenize, with the
mono assertion's message. -/
lemma tokenizeContext_error_of_bad {σ : Type} (g : Generator σ) :
    ∀ ctx : List Segment, (∃ seg ∈ ctx, seg.audio.shape.length ≠ 1) →
    (tokenizeContext g ctx).1 = Except.error "Audio must be single channel" := by
  intro ctx
  induction ctx with
  | nil => rintro ⟨seg, hmem, _⟩; cases hmem
  | cons s rest ih =>
      rintro ⟨seg, hmem, hbad⟩
      by_cases hs : s.audio.shape.length = 1
      · have hrest : ∃ seg ∈ rest, seg.audio.shape.length ≠ 1 := by
          rcases List.mem_cons.mp hmem with h | h
          · rw [h] at hbad; exact absurd hs hbad
          · exact ⟨seg, h, hbad⟩
        obtain ⟨toks, masks, hS⟩ := tokenizeSegment_ok_of_mono g s hs
        have hR := ih hrest
        unfold tokenizeContext
        rw [hS]
        rcases hRC : tokenizeContext g rest with ⟨resR, evsR⟩
        rw [hRC] at hR
        rcases resR with e | vr
        · simp at hR
          rw [hR]
        · simp at hR
      · have hS : tokenizeSegment g s =
            (Except.error "Audio must be single channel", [Event.textTokenize]) := by
          unfold tokenizeSegment tokenizeAudio
          rw [if_neg hs]
          rfl
        unfold tokenizeContext
        rw [hS]

/-- Claim C10: if any context segment's audio tensor is not 1-dimensional,
`Generator.generate` fails with the audio tokenizer's mono assertion
("Audio must be single channel") before the model is ever invoked — mono
audio is a precondition when calling the generator directly, without the
runtime wrapper's downmixing. -/
theorem nonmono_audio_rejected {σ : Type} (g : Generator σ) (cacheIn : σ)
    (text : String) (speaker : Int) (context : List Segment)
    (ms temperature : ℚ) (topk : Nat)
    (hbad : ∃ seg ∈ context, seg.audio.shape.length ≠ 1) :
    (generate g cacheIn text speaker context ms temperature topk).1.1 =
      Except.error "Audio must be single channel" ∧
    Event.modelCall ∉ (generate g cacheIn text speaker context ms temperature topk).1.2 := by
  have hC := tokenizeContext_error_of_bad g context hbad
  rcases hCtx : tokenizeContext g context with ⟨resC, evsC⟩
  rw [hCtx] at hC
  have hA : assemblePrompt g text speaker context =
      (Except.error "Audio must be single channel", evsC) := by
    unfold assemblePrompt
    rw [hCtx]
    rcases resC with e | v
    · simp at hC
      rw [hC]
    · simp at hC
  have hnc := modelCall_not_mem_assemblePrompt g text speaker context
  rw [hA] at hnc
  constructor
  · simp [generate, generateFrom, hA]
  · simp [generate, generateFrom, hA]
    simp [hnc]

/-- Concrete instance of C10: a stereo-shaped (2-D) context tensor makes the
call fail before any model invocation. -/
theorem nonmono_audio_rejected_witness :
    (∃ seg ∈ [Segment.mk 0 "x" (Tensor.mk [2, 5] (List.replicate 10 0))],
      seg.audio.shape.length ≠ 1) ∧
    (generate (egGen 2) 7 "Hi" 0
        [Segment.mk 0 "x" (Tensor.mk [2, 5] (List.replicate 10 0))] 90000 1 50).1.1 =
      Except.error "Audio must be single channel" ∧
    Event.modelCall ∉ (generate (egGen 2) 7 "Hi" 0
        [Segment.mk 0 "x" (Tensor.mk [2, 5] (List.replicate 10 0))] 90000 1 50).1.2 :=
  have hbad : ∃ seg ∈ [Segment.mk 0 "x" (Tensor.mk [2, 5] (List.replicate 10 0))],
      seg.audio.shape.length ≠ 1 :=
    ⟨Segment.mk 0 "x" (Tensor.mk [2, 5] (List.replicate 10 0)), by simp, by simp⟩
  ⟨hbad,
   nonmono_audio_rejected (egGen 2) 7 "Hi" 0
     [Segment.mk 0 "x" (Tensor.mk [2, 5] (List.replicate 10 0))] 90000 1 50 hbad⟩

end CsmRuntime
